import Mathlib

/-!
Verification of the order-notification state machine
(`order_notification/schemas/order.py`, `order_notification/workflows/orders.py`,
`order_notification/activities/notifications.py`), embedded shallowly in Lean.
-/

namespace OrderNotification

/-- `OrderState` enum from `schemas/order.py`. -/
inductive OrderState where
  | ORDER_PLACED
  | VENDOR_NOTIFIED
  | ORDER_ACCEPTED
  | ORDER_DECLINED
  | ORDER_PREPARATION
  | ORDER_READY
  | ORDER_PICKED_UP
deriving DecidableEq, Repr

open OrderState

/-- `_STATE_TRANSITIONS` table from `schemas/order.py` (with the `.get(self, [])`
default of `allowed_next_states` built in: every constructor is covered). -/
def allowed_next_states : OrderState → List OrderState
  | ORDER_PLACED => [VENDOR_NOTIFIED]
  | VENDOR_NOTIFIED => [ORDER_ACCEPTED, ORDER_DECLINED]
  | ORDER_ACCEPTED => [ORDER_PREPARATION]
  | ORDER_PREPARATION => [ORDER_READY]
  | ORDER_READY => [ORDER_PICKED_UP]
  | ORDER_PICKED_UP => []
  | ORDER_DECLINED => []

/-- `OrderState.is_terminal_state` from `schemas/order.py`. -/
def is_terminal_state (s : OrderState) : Bool :=
  s = ORDER_PICKED_UP ∨ s = ORDER_DECLINED

/-- `OrderState.can_transition_to` from `schemas/order.py`. -/
def can_transition_to (s next_state : OrderState) : Bool :=
  next_state ∈ allowed_next_states s

/-- The mutable workflow fields touched by the signal handlers of
`workflows/orders.py`: `self.order_state` and `self.is_new_state`. -/
structure MachineState where
  order_state : OrderState
  is_new_state : Bool
deriving DecidableEq, Repr

/-- `Orders.accept_order` signal handler (`workflows/orders.py`). -/
def accept_order (st : MachineState) : MachineState :=
  if ORDER_ACCEPTED ∈ allowed_next_states st.order_state then
    { order_state := ORDER_ACCEPTED, is_new_state := true }
  else st

/-- `Orders.decline_order` signal handler (`workflows/orders.py`). -/
def decline_order (st : MachineState) : MachineState :=
  if ORDER_DECLINED ∈ allowed_next_states st.order_state then
    { order_state := ORDER_DECLINED, is_new_state := true }
  else st

/-- `Orders.prepare_order` signal handler (`workflows/orders.py`). -/
def prepare_order (st : MachineState) : MachineState :=
  if ORDER_PREPARATION ∈ allowed_next_states st.order_state then
    { order_state := ORDER_PREPARATION, is_new_state := true }
  else st

/-- `Orders.ready_order` signal handler (`workflows/orders.py`). -/
def ready_order (st : MachineState) : MachineState :=
  if ORDER_READY ∈ allowed_next_states st.order_state then
    { order_state := ORDER_READY, is_new_state := true }
  else st

/-- `Orders.pick_up_order` signal handler (`workflows/orders.py`). -/
def pick_up_order (st : MachineState) : MachineState :=
  if ORDER_PICKED_UP ∈ allowed_next_states st.order_state then
    { order_state := ORDER_PICKED_UP, is_new_state := true }
  else st

/-- `Orders.query_order_state` query handler (`workflows/orders.py`). -/
def query_order_state (st : MachineState) : OrderState :=
  st.order_state

/-- The five transition-request signals exposed by the `Orders` workflow. -/
inductive Signal where
  | accept_sig
  | decline_sig
  | prepare_sig
  | ready_sig
  | pick_up_sig
deriving DecidableEq, Repr

/-- The target state each signal handler tries to move to. -/
def Signal.target : Signal → OrderState
  | .accept_sig => ORDER_ACCEPTED
  | .decline_sig => ORDER_DECLINED
  | .prepare_sig => ORDER_PREPARATION
  | .ready_sig => ORDER_READY
  | .pick_up_sig => ORDER_PICKED_UP

/-- Dispatch one incoming signal to its handler. -/
def applySignal (st : MachineState) : Signal → MachineState
  | .accept_sig => accept_order st
  | .decline_sig => decline_order st
  | .prepare_sig => prepare_order st
  | .ready_sig => ready_order st
  | .pick_up_sig => pick_up_order st

/-- The state assignment performed by the `asyncio.TimeoutError` branch of
`Orders._wait_with_expiration` (`workflows/orders.py`, lines 272-279). -/
def expire_transition (s : OrderState) : OrderState :=
  if ORDER_DECLINED ∈ allowed_next_states s then ORDER_DECLINED
  else ORDER_READY

/-- `NotificationChannelType` enum from `schemas/notification.py`. -/
inductive NotificationChannelType where
  | SMS
  | PUSH
deriving DecidableEq, Repr

/-- `UserNotificationMessageType` enum from `schemas/notification.py`. -/
inductive UserNotificationMessageType where
  | ORDER_ACCEPTED
  | ORDER_CANCELED
  | ORDER_BEING_PREPARED
  | ORDER_READY
  | ORDER_COMPLETED
deriving DecidableEq, Repr

/-- `VendorNotificationMessageType` enum from `schemas/notification.py`. -/
inductive VendorNotificationMessageType where
  | NEW_ORDER
deriving DecidableEq, Repr

/-- `UserNotificationInput` from `schemas/notification.py`; the preference
field defaults to `None`. -/
structure UserNotificationInput where
  order_id : String
  user_id : String
  message : UserNotificationMessageType
  user_notification_preference : Option NotificationChannelType := none
deriving DecidableEq, Repr

/-- `VendorNotificationInput` from `schemas/notification.py`; the preference
field defaults to `None`. -/
structure VendorNotificationInput where
  order_id : String
  vendor_id : String
  message : VendorNotificationMessageType
  vendor_notification_preference : Option NotificationChannelType := none
deriving DecidableEq, Repr

/-- The external steps whose failure can abort the orchestration. -/
inductive StepName where
  | get_order_details
  | get_vendor_preference
  | get_user_preference
  | notify_vendor_activity
  | notify_user_activity
deriving DecidableEq, Repr

/-- Outcome schedule for `workflow.execute_activity` calls made by
`notify_user` / `notify_vendor`: each executed notification activity consumes
the head of the list (`true` = the activity eventually succeeds, `false` = its
retries are exhausted and the failure propagates); an empty list means every
remaining activity succeeds. -/
def next_activity_outcome (outcomes : List Bool) : Bool × List Bool :=
  match outcomes with
  | [] => (true, [])
  | b :: rest => (b, rest)

/-- `notify_user` from `activities/notifications.py`: dispatch on the user's
notification preference; `PUSH` executes `notify_user_push`, `SMS` executes
`notify_user_sms`, `None` matches no case and executes nothing.  Returns the
list of notification activities actually executed (their channels) and the
unconsumed outcome schedule, or the failed step when the activity's retries
are exhausted. -/
def notify_user (arg : UserNotificationInput) (outcomes : List Bool) :
    Except StepName (List NotificationChannelType × List Bool) :=
  match arg.user_notification_preference with
  | some NotificationChannelType.PUSH =>
      let (ok, rest) := next_activity_outcome outcomes
      if ok then .ok ([NotificationChannelType.PUSH], rest)
      else .error StepName.notify_user_activity
  | some NotificationChannelType.SMS =>
      let (ok, rest) := next_activity_outcome outcomes
      if ok then .ok ([NotificationChannelType.SMS], rest)
      else .error StepName.notify_user_activity
  | none => .ok ([], outcomes)

/-- `notify_vendor` from `activities/notifications.py`: same dispatch on the
vendor's notification preference. -/
def notify_vendor (arg : VendorNotificationInput) (outcomes : List Bool) :
    Except StepName (List NotificationChannelType × List Bool) :=
  match arg.vendor_notification_preference with
  | some NotificationChannelType.PUSH =>
      let (ok, rest) := next_activity_outcome outcomes
      if ok then .ok ([NotificationChannelType.PUSH], rest)
      else .error StepName.notify_vendor_activity
  | some NotificationChannelType.SMS =>
      let (ok, rest) := next_activity_outcome outcomes
      if ok then .ok ([NotificationChannelType.SMS], rest)
      else .error StepName.notify_vendor_activity
  | none => .ok ([], outcomes)

/-- `OrderWorkflowInput` from `schemas/order.py` (expiration in seconds,
default 60). -/
structure OrderWorkflowInput where
  order_id : String
  expiration_time : Int := 60
deriving DecidableEq, Repr

/-- `OrderDetails` from `schemas/order.py`; `order_date` (a datetime) is
modelled as an integer timestamp. -/
structure OrderDetails where
  order_id : String
  user_id : String
  vendor_id : String
  order_date : Int
deriving DecidableEq, Repr

/-- `UserPreference` from `schemas/user.py` (default `PUSH`). -/
structure UserPreference where
  user_id : String
  notification_preference : NotificationChannelType := NotificationChannelType.PUSH
deriving DecidableEq, Repr

/-- `VendorPreference` from `schemas/vendor.py` (default `PUSH`). -/
structure VendorPreference where
  vendor_id : String
  notification_preference : NotificationChannelType := NotificationChannelType.PUSH
deriving DecidableEq, Repr

/-- One completed call of `workflow.wait_condition(lambda: self.is_new_state,
timeout=...)` inside `Orders._wait_with_expiration`, as seen by the workflow:
the signals delivered (and handled atomically) during the wait, whether the
wait ended by the timeout firing (`timed_out = true`) or by the predicate
becoming true, and the value of `workflow.now()` when the wait returned. -/
structure WaitOutcome where
  sigs : List Signal
  timed_out : Bool
  at_time : Int
deriving DecidableEq, Repr

/-- `Orders._wait_with_expiration` (`workflows/orders.py`, lines 264-290):
deliver the signals of the outcome to their handlers; if the wait timed out,
apply the fallback assignment (`expire_transition`); return the new machine
state together with the remaining expiration time, computed as
`self.order_expiration_time - (workflow.now() - workflow.info().start_time)`
— note the returned remaining time does not depend on the timeout argument
the caller passed in. -/
def wait_with_expiration (st : MachineState) (o : WaitOutcome)
    (order_expiration_time start_time : Int) : MachineState × Int :=
  let st1 := o.sigs.foldl applySignal st
  let st2 :=
    if o.timed_out then
      { st1 with order_state := expire_transition st1.order_state }
    else st1
  (st2, order_expiration_time - (o.at_time - start_time))

/-- Result of (a prefix of) the `Orders.run` orchestration: the list of
messages of the `notify_user` calls that completed, and the final or
last-recorded `order_state`.  `aborted` means an external step failed after
its retries were exhausted; the `waiting` results mean the workflow is still
blocked on a wait (its event schedule was exhausted without completing). -/
inductive RunResult where
  | completed (msgs : List UserNotificationMessageType) (final : OrderState)
  | aborted (msgs : List UserNotificationMessageType) (last : OrderState)
      (failed : StepName)
  | waiting_for_signal (msgs : List UserNotificationMessageType)
      (last : OrderState)
  | waiting_for_pickup (msgs : List UserNotificationMessageType)
      (last : OrderState)
deriving DecidableEq, Repr

/-- Prepend a completed user notification to the message log of a result. -/
def RunResult.with_msg (m : UserNotificationMessageType) : RunResult → RunResult
  | .completed msgs f => .completed (m :: msgs) f
  | .aborted msgs l s => .aborted (m :: msgs) l s
  | .waiting_for_signal msgs l => .waiting_for_signal (m :: msgs) l
  | .waiting_for_pickup msgs l => .waiting_for_pickup (m :: msgs) l

/-- Step 6 of `Orders.run` (lines 176-193): after the READY branch exits the
loop, block until `order_state == ORDER_PICKED_UP` with no timeout (signals
in `sigs` are delivered while blocked), then notify the user
`ORDER_COMPLETED` and return `order_state`. -/
def pickup_wait (order_id : String) (order_details : OrderDetails)
    (user_preference : UserPreference) (outcomes : List Bool)
    (st : MachineState) (sigs : List Signal) : RunResult :=
  let stF := sigs.foldl applySignal st
  if stF.order_state = ORDER_PICKED_UP then
    match notify_user
        ⟨order_id, order_details.user_id, UserNotificationMessageType.ORDER_COMPLETED,
          some user_preference.notification_preference⟩ outcomes with
    | .error f => .aborted [] stF.order_state f
    | .ok _ => .completed [UserNotificationMessageType.ORDER_COMPLETED] stF.order_state
  else .waiting_for_pickup [] stF.order_state

/-- Step 5 of `Orders.run` (lines 99-174): the wait loop.  One `WaitOutcome`
is consumed per iteration; `remaining` is the timeout passed to the current
wait and is rebound to the value `_wait_with_expiration` returns.  Also
returns the trace of timeout values passed to the successive waits. -/
def run_loop (order_id : String) (order_details : OrderDetails)
    (user_preference : UserPreference) (outcomes : List Bool)
    (st : MachineState) (events : List WaitOutcome) (pickup_sigs : List Signal)
    (order_expiration_time start_time remaining : Int) : RunResult × List Int :=
  match events with
  | [] => (.waiting_for_signal [] st.order_state, [])
  | o :: rest =>
    let st2 := (wait_with_expiration st o order_expiration_time start_time).1
    let remaining2 := (wait_with_expiration st o order_expiration_time start_time).2
    match st2.order_state with
    | ORDER_ACCEPTED =>
      match notify_user
          ⟨order_id, order_details.user_id, UserNotificationMessageType.ORDER_ACCEPTED,
            some user_preference.notification_preference⟩ outcomes with
      | .error f => (.aborted [] st2.order_state f, [remaining])
      | .ok (_, outcomes2) =>
        ((run_loop order_id order_details user_preference outcomes2
            { st2 with is_new_state := false } rest pickup_sigs
            order_expiration_time start_time remaining2).1.with_msg
          UserNotificationMessageType.ORDER_ACCEPTED,
          remaining :: (run_loop order_id order_details user_preference outcomes2
            { st2 with is_new_state := false } rest pickup_sigs
            order_expiration_time start_time remaining2).2)
    | ORDER_PREPARATION =>
      match notify_user
          ⟨order_id, order_details.user_id, UserNotificationMessageType.ORDER_BEING_PREPARED,
            some user_preference.notification_preference⟩ outcomes with
      | .error f => (.aborted [] st2.order_state f, [remaining])
      | .ok (_, outcomes2) =>
        ((run_loop order_id order_details user_preference outcomes2
            { st2 with is_new_state := false } rest pickup_sigs
            order_expiration_time start_time remaining2).1.with_msg
          UserNotificationMessageType.ORDER_BEING_PREPARED,
          remaining :: (run_loop order_id order_details user_preference outcomes2
            { st2 with is_new_state := false } rest pickup_sigs
            order_expiration_time start_time remaining2).2)
    | ORDER_READY =>
      match notify_user
          ⟨order_id, order_details.user_id, UserNotificationMessageType.ORDER_READY,
            some user_preference.notification_preference⟩ outcomes with
      | .error f => (.aborted [] st2.order_state f, [remaining])
      | .ok (_, outcomes2) =>
        ((pickup_wait order_id order_details user_preference outcomes2 st2
            pickup_sigs).with_msg UserNotificationMessageType.ORDER_READY,
          [remaining])
    | _ =>
      match notify_user
          ⟨order_id, order_details.user_id, UserNotificationMessageType.ORDER_CANCELED,
            some user_preference.notification_preference⟩ outcomes with
      | .error f => (.aborted [] st2.order_state f, [remaining])
      | .ok _ => (.completed [UserNotificationMessageType.ORDER_CANCELED] st2.order_state, [remaining])

/-- Results of the three database activities of `activities/database.py` as
seen by the workflow (`none` = retries exhausted, the activity call fails),
plus the outcome schedule for the notification activities. -/
structure RunEnv where
  order_details : Option OrderDetails
  vendor_preference : Option VendorPreference
  user_preference : Option UserPreference
  activity_outcomes : List Bool
deriving DecidableEq, Repr

/-- `Orders.run` (`workflows/orders.py`, lines 51-193): fetch order details
and vendor preference, notify the vendor, set `order_state = VENDOR_NOTIFIED`,
fetch the user preference, then enter the wait loop with
`remaining = order_expiration_time`.  `start_time` is the workflow start
time; `events` and `pickup_sigs` schedule the external signal arrivals. -/
def Orders_run (arg : OrderWorkflowInput) (env : RunEnv)
    (events : List WaitOutcome) (pickup_sigs : List Signal)
    (start_time : Int) : RunResult × List Int :=
  match env.order_details with
  | none => (.aborted [] ORDER_PLACED StepName.get_order_details, [])
  | some order_details =>
    match env.vendor_preference with
    | none => (.aborted [] ORDER_PLACED StepName.get_vendor_preference, [])
    | some vendor_preference =>
      match notify_vendor
          ⟨arg.order_id, order_details.vendor_id, VendorNotificationMessageType.NEW_ORDER,
            some vendor_preference.notification_preference⟩ env.activity_outcomes with
      | .error f => (.aborted [] ORDER_PLACED f, [])
      | .ok (_, outcomes1) =>
        match env.user_preference with
        | none => (.aborted [] VENDOR_NOTIFIED StepName.get_user_preference, [])
        | some user_preference =>
          run_loop arg.order_id order_details user_preference outcomes1
            { order_state := VENDOR_NOTIFIED, is_new_state := false }
            events pickup_sigs arg.expiration_time start_time arg.expiration_time

/-- Replay a sequence of transition-request signals against a state machine. -/
def replay (st : MachineState) (sigs : List Signal) : MachineState :=
  sigs.foldl applySignal st

/-- Replay a sequence of timestamped transition-request signals: each signal
handler reads only `order_state` / `is_new_state`, never the clock, so the
timestamp is carried but ignored by the handler. -/
def replay_timed (st : MachineState) (l : List (Signal × Int)) : MachineState :=
  l.foldl (fun s p => applySignal s p.1) st

/-!  Theorems. -/

/-- C1: for every state `S` and every target `T` among the five signal
targets, invoking the transition-request signal for `T` when
`order_state = S` sets `order_state` to `T` and sets `is_new_state` to true
if `T ∈ allowed_next_states S`; otherwise it leaves the whole machine state
unchanged.  The handlers are total functions, so no error is ever raised to
the caller. -/
theorem C1_signal_transition (st : MachineState) (sig : Signal) :
    (sig.target ∈ allowed_next_states st.order_state →
      applySignal st sig = { order_state := sig.target, is_new_state := true }) ∧
    (sig.target ∉ allowed_next_states st.order_state → applySignal st sig = st) := by
  cases sig <;>
    refine ⟨fun h => ?_, fun h => ?_⟩ <;>
      simp only [applySignal, Signal.target] at h ⊢ <;>
      simp [accept_order, decline_order, prepare_order, ready_order, pick_up_order, h]

/-- Witness for C1: from `VENDOR_NOTIFIED` the accept signal transitions to
`ORDER_ACCEPTED` and raises the flag; from `ORDER_PLACED` it is a no-op. -/
theorem C1_signal_transition_witness :
    applySignal ⟨VENDOR_NOTIFIED, false⟩ Signal.accept_sig =
      { order_state := ORDER_ACCEPTED, is_new_state := true } ∧
    applySignal ⟨ORDER_PLACED, false⟩ Signal.accept_sig = ⟨ORDER_PLACED, false⟩ :=
  ⟨(C1_signal_transition ⟨VENDOR_NOTIFIED, false⟩ Signal.accept_sig).1 (by decide),
   (C1_signal_transition ⟨ORDER_PLACED, false⟩ Signal.accept_sig).2 (by decide)⟩

/-- C2: when `_wait_with_expiration` times out (no signal was delivered, the
pending-state-change predicate is still false), it sets `order_state` to
`ORDER_DECLINED` when `ORDER_DECLINED` is an allowed next state and to
`ORDER_READY` otherwise; in particular a timeout in `VENDOR_NOTIFIED` yields
`ORDER_DECLINED` and a timeout in `ORDER_ACCEPTED` or `ORDER_PREPARATION`
yields `ORDER_READY`. -/
theorem C2_expiration_fallback (st : MachineState) (o : WaitOutcome)
    (exp start : Int) (hto : o.timed_out = true) (hsig : o.sigs = []) :
    ((wait_with_expiration st o exp start).1.order_state =
      if ORDER_DECLINED ∈ allowed_next_states st.order_state then ORDER_DECLINED
      else ORDER_READY) ∧
    (st.order_state = VENDOR_NOTIFIED →
      (wait_with_expiration st o exp start).1.order_state = ORDER_DECLINED) ∧
    (st.order_state = ORDER_ACCEPTED →
      (wait_with_expiration st o exp start).1.order_state = ORDER_READY) ∧
    (st.order_state = ORDER_PREPARATION →
      (wait_with_expiration st o exp start).1.order_state = ORDER_READY) := by
  refine ⟨?_, fun h => ?_, fun h => ?_, fun h => ?_⟩
  · simp [wait_with_expiration, hto, hsig, expire_transition]
  all_goals
    simp [wait_with_expiration, hto, hsig, expire_transition, h, allowed_next_states]

/-- Witness for C2: a timeout with no delivered signals while in
`VENDOR_NOTIFIED` forces `ORDER_DECLINED`. -/
theorem C2_expiration_fallback_witness :
    (wait_with_expiration ⟨VENDOR_NOTIFIED, false⟩ ⟨[], true, 10⟩ 60 0).1.order_state =
      ORDER_DECLINED :=
  (C2_expiration_fallback ⟨VENDOR_NOTIFIED, false⟩ ⟨[], true, 10⟩ 60 0 rfl rfl).2.1 rfl

/-- C3: the expiration fallback does not preserve the allowed-transition
relation: on a timeout in `ORDER_ACCEPTED` it assigns `ORDER_READY`, which is
not in `allowed_next_states ORDER_ACCEPTED` (whose only element is
`ORDER_PREPARATION`); the signal handlers, by contrast, only ever move along
edges of the transition table. -/
theorem C3_fallback_breaks_invariant :
    (expire_transition ORDER_ACCEPTED = ORDER_READY ∧
      ORDER_READY ∉ allowed_next_states ORDER_ACCEPTED ∧
      allowed_next_states ORDER_ACCEPTED = [ORDER_PREPARATION]) ∧
    (∀ b : Bool, ∀ t exp start : Int,
      (wait_with_expiration ⟨ORDER_ACCEPTED, b⟩ ⟨[], true, t⟩ exp start).1.order_state =
        ORDER_READY) ∧
    (∀ st : MachineState, ∀ sig : Signal,
      (applySignal st sig).order_state = st.order_state ∨
      (applySignal st sig).order_state ∈ allowed_next_states st.order_state) := by
  refine ⟨by decide, fun b t exp start => rfl, fun st sig => ?_⟩
  rcases st with ⟨os, ins⟩
  cases os <;> cases sig <;> cases ins <;> decide

/-- C7: the final machine state of a replay is a deterministic function of
the signal sequence alone: replaying two timestamped sequences carrying the
same signals in the same order from the same start state yields the same
state, and either replay agrees with the untimed replay of the signal
sequence. -/
theorem C7_deterministic_replay (st : MachineState) (l1 l2 : List (Signal × Int))
    (h : l1.map Prod.fst = l2.map Prod.fst) :
    replay_timed st l1 = replay_timed st l2 ∧
    replay_timed st l1 = replay st (l1.map Prod.fst) := by
  have key : ∀ (l : List (Signal × Int)) (s : MachineState),
      replay_timed s l = replay s (l.map Prod.fst) := by
    intro l
    induction l with
    | nil => intro s; rfl
    | cons p rest ih => intro s; simpa [replay_timed, replay] using ih (applySignal s p.1)
  refine ⟨?_, key l1 st⟩
  rw [key l1 st, key l2 st, h]

/-- Witness for C7: the same accept-then-prepare sequence under two different
timestamp assignments reaches the same final state. -/
theorem C7_deterministic_replay_witness :
    replay_timed ⟨ORDER_PLACED, false⟩ [(Signal.accept_sig, 1), (Signal.prepare_sig, 2)] =
      replay_timed ⟨ORDER_PLACED, false⟩ [(Signal.accept_sig, 50), (Signal.prepare_sig, 90)] ∧
    replay_timed ⟨ORDER_PLACED, false⟩ [(Signal.accept_sig, 1), (Signal.prepare_sig, 2)] =
      replay ⟨ORDER_PLACED, false⟩ [Signal.accept_sig, Signal.prepare_sig] :=
  C7_deterministic_replay ⟨ORDER_PLACED, false⟩
    [(Signal.accept_sig, 1), (Signal.prepare_sig, 2)]
    [(Signal.accept_sig, 50), (Signal.prepare_sig, 90)] (by decide)

/-- C9: when the notification preference carried in a
`UserNotificationInput` / `VendorNotificationInput` is `none` (the field's
default), `notify_user` / `notify_vendor` execute no notification activity at
all and return successfully, leaving the activity-outcome schedule
untouched; and the preference field of an input built without naming it is
indeed `none`. -/
theorem C9_none_preference_drops (arg : UserNotificationInput)
    (varg : VendorNotificationInput) (outcomes : List Bool)
    (hu : arg.user_notification_preference = none)
    (hv : varg.vendor_notification_preference = none) :
    notify_user arg outcomes = .ok ([], outcomes) ∧
    notify_vendor varg outcomes = .ok ([], outcomes) ∧
    (∀ o u m, ({ order_id := o, user_id := u, message := m } :
        UserNotificationInput).user_notification_preference = none) ∧
    (∀ o v m, ({ order_id := o, vendor_id := v, message := m } :
        VendorNotificationInput).vendor_notification_preference = none) := by
  refine ⟨?_, ?_, fun o u m => rfl, fun o v m => rfl⟩
  · simp [notify_user, hu]
  · simp [notify_vendor, hv]

/-- Witness for C9: a concrete input with the default preference is dropped
silently by both notification helpers. -/
theorem C9_none_preference_drops_witness :
    notify_user ⟨"o1", "u1", UserNotificationMessageType.ORDER_READY, none⟩ [false] =
      .ok ([], [false]) ∧
    notify_vendor ⟨"o1", "v1", VendorNotificationMessageType.NEW_ORDER, none⟩ [false] =
      .ok ([], [false]) :=
  ⟨(C9_none_preference_drops ⟨"o1", "u1", UserNotificationMessageType.ORDER_READY, none⟩
      ⟨"o1", "v1", VendorNotificationMessageType.NEW_ORDER, none⟩ [false] rfl rfl).1,
   (C9_none_preference_drops ⟨"o1", "u1", UserNotificationMessageType.ORDER_READY, none⟩
      ⟨"o1", "v1", VendorNotificationMessageType.NEW_ORDER, none⟩ [false] rfl rfl).2.1⟩

/-- C10: no `OrderState` appears in its own `allowed_next_states`, and
consequently every transition-request signal handler is idempotent: applying
the same signal twice in immediate succession from any machine state equals
applying it once. -/
theorem C10_signal_idempotent :
    (∀ s : OrderState, s ∉ allowed_next_states s) ∧
    (∀ st : MachineState, ∀ sig : Signal,
      applySignal (applySignal st sig) sig = applySignal st sig) := by
  constructor
  · intro s; cases s <;> decide
  · intro st sig
    rcases st with ⟨os, ins⟩
    cases os <;> cases sig <;> cases ins <;> decide

/-- C4: in any run in which no transition-request signal ever arrives (the
first wait ends by timeout with no delivered signals; later scheduled waits
are irrelevant), the wait times out in `VENDOR_NOTIFIED`, the user is sent
the `ORDER_CANCELED` notification, and the run returns final state
`ORDER_DECLINED` immediately: only one wait ever runs, whatever the rest of
the schedule holds. -/
theorem C4_no_signal_declines (arg : OrderWorkflowInput) (od : OrderDetails)
    (vp : VendorPreference) (up : UserPreference) (t start : Int)
    (rest : List WaitOutcome) (pickup_sigs : List Signal) :
    Orders_run arg ⟨some od, some vp, some up, []⟩ (⟨[], true, t⟩ :: rest)
        pickup_sigs start =
      (.completed [UserNotificationMessageType.ORDER_CANCELED] ORDER_DECLINED,
        [arg.expiration_time]) := by
  rcases vp with ⟨vid, vpref⟩
  rcases up with ⟨uid, upref⟩
  cases vpref <;> cases upref <;> rfl

/-- C5: in any run in which the signals accept, prepare, ready and pick-up
each arrive (in that order) within their waits before the deadline, the
orchestration sends the user `ORDER_ACCEPTED`, `ORDER_BEING_PREPARED`,
`ORDER_READY` and `ORDER_COMPLETED` in that order and returns final state
`ORDER_PICKED_UP`. -/
theorem C5_happy_path (arg : OrderWorkflowInput) (od : OrderDetails)
    (vp : VendorPreference) (up : UserPreference) (t1 t2 t3 start : Int) :
    Orders_run arg ⟨some od, some vp, some up, []⟩
        [⟨[Signal.accept_sig], false, t1⟩, ⟨[Signal.prepare_sig], false, t2⟩,
          ⟨[Signal.ready_sig], false, t3⟩]
        [Signal.pick_up_sig] start =
      (.completed
        [UserNotificationMessageType.ORDER_ACCEPTED,
          UserNotificationMessageType.ORDER_BEING_PREPARED,
          UserNotificationMessageType.ORDER_READY,
          UserNotificationMessageType.ORDER_COMPLETED] ORDER_PICKED_UP,
        [arg.expiration_time, arg.expiration_time - (t1 - start),
          arg.expiration_time - (t2 - start)]) := by
  rcases vp with ⟨vid, vpref⟩
  rcases up with ⟨uid, upref⟩
  cases vpref <;> cases upref <;> rfl

/-- C8: when an external step fails after its retries are exhausted, the
orchestration aborts with that step's failure, `order_state` keeps its
last-recorded value (no expiration fallback or other transition is applied
on the abort path), and no user notification completes afterwards (the
message log of every aborted run below is empty).  The five conjuncts cover
the order-details fetch, the vendor-preference fetch, the vendor
notification send, the user-preference fetch, and a notification send
inside the wait loop. -/
theorem C8_step_failure_aborts :
    (∀ arg env events pickup_sigs start, env.order_details = none →
      Orders_run arg env events pickup_sigs start =
        (.aborted [] ORDER_PLACED StepName.get_order_details, [])) ∧
    (∀ arg env events pickup_sigs start od, env.order_details = some od →
      env.vendor_preference = none →
      Orders_run arg env events pickup_sigs start =
        (.aborted [] ORDER_PLACED StepName.get_vendor_preference, [])) ∧
    (∀ arg od vp up events pickup_sigs start rest,
      Orders_run arg ⟨some od, some vp, up, false :: rest⟩ events pickup_sigs start =
        (.aborted [] ORDER_PLACED StepName.notify_vendor_activity, [])) ∧
    (∀ arg od vp events pickup_sigs start outcomes cs outs,
      notify_vendor ⟨arg.order_id, od.vendor_id, VendorNotificationMessageType.NEW_ORDER,
          some vp.notification_preference⟩ outcomes = .ok (cs, outs) →
      Orders_run arg ⟨some od, some vp, none, outcomes⟩ events pickup_sigs start =
        (.aborted [] VENDOR_NOTIFIED StepName.get_user_preference, [])) ∧
    (∀ arg od vp up pickup_sigs start t rest,
      Orders_run arg ⟨some od, some vp, some up, [true, false]⟩
          (⟨[Signal.accept_sig], false, t⟩ :: rest) pickup_sigs start =
        (.aborted [] ORDER_ACCEPTED StepName.notify_user_activity,
          [arg.expiration_time])) := by
  refine ⟨?_, ?_, ?_, ?_, ?_⟩
  · intro arg env events pickup_sigs start h
    rcases env with ⟨d, v, u, outs⟩
    cases h
    rfl
  · intro arg env events pickup_sigs start od h1 h2
    rcases env with ⟨d, v, u, outs⟩
    cases h1
    cases h2
    rfl
  · intro arg od vp up events pickup_sigs start rest
    rcases vp with ⟨vid, vpref⟩
    cases vpref <;> rfl
  · intro arg od vp events pickup_sigs start outcomes cs outs h
    simp only [Orders_run, h]
  · intro arg od vp up pickup_sigs start t rest
    rcases vp with ⟨vid, vpref⟩
    rcases up with ⟨uid, upref⟩
    cases vpref <;> cases upref <;> rfl

/-- One unfolding of the wait loop: the trace of a nonempty schedule starts
with the timeout passed in, and when the loop iterates, the next call's
timeout argument is `exp - (o.at_time - start)`, the value
`_wait_with_expiration` returned. -/
theorem run_loop_trace_shape (oid : String) (od : OrderDetails)
    (up : UserPreference) (outcomes : List Bool) (st : MachineState)
    (o : WaitOutcome) (rest : List WaitOutcome) (psigs : List Signal)
    (exp start rem : Int) :
    (run_loop oid od up outcomes st (o :: rest) psigs exp start rem).2 = [rem] ∨
    ∃ outcomes2 st2,
      (run_loop oid od up outcomes st (o :: rest) psigs exp start rem).2 =
        rem :: (run_loop oid od up outcomes2 st2 rest psigs exp start
          (exp - (o.at_time - start))).2 := by
  simp only [run_loop]
  split <;> (try split) <;>
    first
      | exact Or.inl rfl
      | exact Or.inr ⟨_, _, rfl⟩

/-- The first timeout a nonempty wait-loop trace records is the timeout the
loop was entered with. -/
theorem run_loop_trace_head (oid : String) (od : OrderDetails)
    (up : UserPreference) (outcomes : List Bool) (st : MachineState)
    (events : List WaitOutcome) (psigs : List Signal) (exp start rem : Int)
    (h : (run_loop oid od up outcomes st events psigs exp start rem).2 ≠ []) :
    (run_loop oid od up outcomes st events psigs exp start rem).2.getD 0 0 = rem := by
  cases events with
  | nil => simp [run_loop] at h
  | cons o rest =>
    rcases run_loop_trace_shape oid od up outcomes st o rest psigs exp start rem with
      heq | ⟨oc2, st2, heq⟩ <;> rw [heq] <;> rfl

/-- Every wait after the first receives `exp - (at_time - start)` as its
timeout, where `at_time` is the time the previous wait returned: the
deadline is absolute. -/
theorem run_loop_trace_tail (oid : String) (od : OrderDetails)
    (up : UserPreference) :
    ∀ (events : List WaitOutcome) (outcomes : List Bool) (st : MachineState)
      (psigs : List Signal) (exp start rem : Int) (i : Nat),
      i + 1 < (run_loop oid od up outcomes st events psigs exp start rem).2.length →
      (run_loop oid od up outcomes st events psigs exp start rem).2.getD (i + 1) 0 =
        exp - ((events.getD i ⟨[], false, 0⟩).at_time - start) := by
  intro events
  induction events with
  | nil =>
    intro outcomes st psigs exp start rem i h
    simp [run_loop] at h
  | cons o rest ih =>
    intro outcomes st psigs exp start rem i h
    rcases run_loop_trace_shape oid od up outcomes st o rest psigs exp start rem with
      heq | ⟨oc2, st2, heq⟩
    · rw [heq] at h
      simp at h
    · rw [heq] at h ⊢
      cases i with
      | zero =>
        have hne : (run_loop oid od up oc2 st2 rest psigs exp start
            (exp - (o.at_time - start))).2 ≠ [] := by
          intro hnil
          rw [hnil] at h
          simp at h
        simpa using run_loop_trace_head oid od up oc2 st2 rest psigs exp start
          (exp - (o.at_time - start)) hne
      | succ j =>
        have h2 : j + 1 < (run_loop oid od up oc2 st2 rest psigs exp start
            (exp - (o.at_time - start))).2.length := by
          simpa using h
        simpa using ih oc2 st2 psigs exp start (exp - (o.at_time - start)) j h2

/-- C6: in any run, the timeout passed to the first wait is the configured
expiration duration, and the timeout passed to every successive wait equals
the expiration duration minus the elapsed time since the workflow start
time (`exp - (at_time - start)`, an absolute deadline); it is never reset to
the full duration at the start of a new loop iteration. -/
theorem C6_absolute_deadline (arg : OrderWorkflowInput) (env : RunEnv)
    (events : List WaitOutcome) (pickup_sigs : List Signal) (start : Int)
    (tr : List Int) (htr : tr = (Orders_run arg env events pickup_sigs start).2) :
    (tr ≠ [] → tr.getD 0 0 = arg.expiration_time) ∧
    (∀ i : Nat, i + 1 < tr.length →
      tr.getD (i + 1) 0 =
        arg.expiration_time - ((events.getD i ⟨[], false, 0⟩).at_time - start)) := by
  subst htr
  rcases env with ⟨d, v, u, outs⟩
  cases d with
  | none => simp [Orders_run]
  | some od =>
    cases v with
    | none => simp [Orders_run]
    | some vp =>
      cases hnv : notify_vendor ⟨arg.order_id, od.vendor_id,
          VendorNotificationMessageType.NEW_ORDER,
          some vp.notification_preference⟩ outs with
      | error f => simp [Orders_run, hnv]
      | ok p =>
        obtain ⟨cs, outs1⟩ := p
        cases u with
        | none => simp [Orders_run, hnv]
        | some up =>
          simp only [Orders_run, hnv]
          exact ⟨fun hne => run_loop_trace_head arg.order_id od up outs1
              ⟨VENDOR_NOTIFIED, false⟩ events pickup_sigs arg.expiration_time
              start arg.expiration_time hne,
            fun i hi => run_loop_trace_tail arg.order_id od up events outs1
              ⟨VENDOR_NOTIFIED, false⟩ pickup_sigs arg.expiration_time start
              arg.expiration_time i hi⟩

/-- Witness for C6: on a concrete three-wait run the first wait receives the
full 60-second expiration and the second wait receives `60 - (5 - 0)`, the
expiration minus the elapsed time when the first wait returned. -/
theorem C6_absolute_deadline_witness :
    ((Orders_run ⟨"o1", 60⟩
        ⟨some ⟨"o1", "u1", "v1", 0⟩, some ⟨"v1", NotificationChannelType.PUSH⟩,
          some ⟨"u1", NotificationChannelType.PUSH⟩, []⟩
        [⟨[Signal.accept_sig], false, 5⟩, ⟨[Signal.prepare_sig], false, 10⟩,
          ⟨[Signal.ready_sig], false, 20⟩] [Signal.pick_up_sig] 0).2.getD 0 0 = 60) ∧
    ((Orders_run ⟨"o1", 60⟩
        ⟨some ⟨"o1", "u1", "v1", 0⟩, some ⟨"v1", NotificationChannelType.PUSH⟩,
          some ⟨"u1", NotificationChannelType.PUSH⟩, []⟩
        [⟨[Signal.accept_sig], false, 5⟩, ⟨[Signal.prepare_sig], false, 10⟩,
          ⟨[Signal.ready_sig], false, 20⟩] [Signal.pick_up_sig] 0).2.getD 1 0 =
      60 - ((5 : Int) - 0)) :=
  ⟨(C6_absolute_deadline ⟨"o1", 60⟩
      ⟨some ⟨"o1", "u1", "v1", 0⟩, some ⟨"v1", NotificationChannelType.PUSH⟩,
        some ⟨"u1", NotificationChannelType.PUSH⟩, []⟩
      [⟨[Signal.accept_sig], false, 5⟩, ⟨[Signal.prepare_sig], false, 10⟩,
        ⟨[Signal.ready_sig], false, 20⟩] [Signal.pick_up_sig] 0 _ rfl).1
      (by decide),
   (C6_absolute_deadline ⟨"o1", 60⟩
      ⟨some ⟨"o1", "u1", "v1", 0⟩, some ⟨"v1", NotificationChannelType.PUSH⟩,
        some ⟨"u1", NotificationChannelType.PUSH⟩, []⟩
      [⟨[Signal.accept_sig], false, 5⟩, ⟨[Signal.prepare_sig], false, 10⟩,
        ⟨[Signal.ready_sig], false, 20⟩] [Signal.pick_up_sig] 0 _ rfl).2 0
      (by decide)⟩

/-- Witness for C8: concrete runs failing at the order-details fetch, at the
user-preference fetch, and at the in-loop accept notification. -/
theorem C8_step_failure_aborts_witness :
    Orders_run ⟨"o1", 60⟩ ⟨none, none, none, []⟩ [] [] 0 =
      (.aborted [] ORDER_PLACED StepName.get_order_details, []) ∧
    Orders_run ⟨"o1", 60⟩ ⟨some ⟨"o1", "u1", "v1", 0⟩, some ⟨"v1",
        NotificationChannelType.PUSH⟩, none, []⟩ [] [] 0 =
      (.aborted [] VENDOR_NOTIFIED StepName.get_user_preference, []) ∧
    Orders_run ⟨"o1", 60⟩ ⟨some ⟨"o1", "u1", "v1", 0⟩, some ⟨"v1",
        NotificationChannelType.PUSH⟩, some ⟨"u1", NotificationChannelType.SMS⟩,
        [true, false]⟩ [⟨[Signal.accept_sig], false, 5⟩] [] 0 =
      (.aborted [] ORDER_ACCEPTED StepName.notify_user_activity, [60]) :=
  ⟨C8_step_failure_aborts.1 ⟨"o1", 60⟩ ⟨none, none, none, []⟩ [] [] 0 rfl,
   C8_step_failure_aborts.2.2.2.1 ⟨"o1", 60⟩ ⟨"o1", "u1", "v1", 0⟩
     ⟨"v1", NotificationChannelType.PUSH⟩ [] [] 0 []
     [NotificationChannelType.PUSH] [] rfl,
   C8_step_failure_aborts.2.2.2.2 ⟨"o1", 60⟩ ⟨"o1", "u1", "v1", 0⟩
     ⟨"v1", NotificationChannelType.PUSH⟩ ⟨"u1", NotificationChannelType.SMS⟩
     [] 0 5 []⟩

end OrderNotification
